import Mathlib

/-
A verification development for the vibe-coding coach application
(`vibecoding_coach.py`): a three-stage prompt pipeline in which three
"coach" stage runners (ConceptCoach.explain, PromptEngineeringCoach.design,
ImplementationCoach.implement) each assemble a prompt from a
category-specific template, invoke an external text-generation service,
and post-process the outcome, while a coordinator
(VibeCodingTeam.get_coding_advice) sequences the three stages, threads each
stage's text into the next, and appends one log entry per run.

Modelling conventions:
- Python strings are Lean `String`s; a Python dict of user fields is an
  association list (`InputData`) whose `.get(key, '')` is `InputData.get`.
- The external call `self.model.generate_content(prompt)` is an opaque
  function `gen : String → GenResult`; `GenResult.raised e` models the call
  raising an exception whose `str` is `e`, and `GenResult.returned t` models
  a returned response whose `.text` is `t` (`none` models a null/absent
  text or a falsy response object, `some ""` an empty text, matching the
  code's single truthiness test `if response and response.text`).
- A stage function that may raise an exception out of itself is modelled as
  `Except String α` (the coordinator's per-stage `try/except` matches on
  it); the three real stage runners catch the external call's exceptions
  internally and therefore never raise, so they are embedded as total
  functions returning `String`.
- The coordinator's own unexpected failures (anything escaping the three
  stage-level handlers, e.g. UI or setup calls raising inside the outer
  `try`) are modelled by an explicit `fault : Option String` input; every
  such failure happens before the run's log entry is appended, so the
  observable outcome does not depend on where it occurred.
- `datetime.now()` is an opaque `timestamp : String` input; Streamlit UI
  calls (`st.markdown`, `st.spinner`, `st.error`) have no effect on the
  pipeline's data and are not modelled.
-/

/- ===== Data model ===== -/

/-- A user request's field mapping (the Python `input_data` dict). The list
order models the dict's insertion order. -/
abbrev InputData := List (String × String)

/-- `input_data.get(key, '')`: the value of `key`, or `""` when absent. -/
def InputData.get (input_data : InputData) (key : String) : String :=
  match input_data.lookup key with
  | some v => v
  | none => ""

/-- `str(input_data)`: the serialized request, modelling Python's dict repr
for keys and values that contain no quote or escape characters (the form
the templates interpolate via `{str(input_data)}`). -/
def InputData.reprStr (input_data : InputData) : String :=
  "\x7b" ++
    String.intercalate ", "
      (input_data.map (fun p => "\x27" ++ p.1 ++ "\x27: \x27" ++ p.2 ++ "\x27")) ++
    "\x7d"

/-- Outcome of one invocation of the external text-generation service. -/
inductive GenResult where
  /-- the call raised an exception with text `err` -/
  | raised (err : String)
  /-- the call returned a response whose `.text` is `text` (`none`: null) -/
  | returned (text : Option String)

/-- One per-stage record of the coordinator's workflow log. -/
structure StepRecord where
  coach : String
  action : String
  status : String
  error : Option String
deriving DecidableEq

/-- One entry of `self.workflow_logs` (one pipeline run). -/
structure WorkflowLog where
  service_type : String
  timestamp : String
  coaches_involved : List String
  steps : List StepRecord
deriving DecidableEq

/-- The dict returned by `get_coding_advice`: exactly three text fields. -/
structure AdviceResult where
  concept : String
  prompt : String
  implementation : String
deriving DecidableEq

/- ===== The three coaches: fixed identity text ===== -/

def ConceptCoach.coach_name : String := "김민준 개념 코치"

def PromptEngineeringCoach.coach_name : String := "이서연 프롬프트 코치"

def ImplementationCoach.coach_name : String := "박지훈 구현 코치"

/- ===== Prompt templates, transcribed byte-exact from the source
(f-string interpolations become `++`; `\x27` is an apostrophe, `\x7b`/`\x7d`
are braces) ===== -/

def ConceptCoach.coach_intro : String :=
  "\n        안녕하세요, 김민준 바이브 코딩 개념 코치입니다. \n        저는 바이브 코딩의 핵심 개념과 원리를 이해하기 쉽게 설명합니다.\n        바이브 코딩은 2025년 2월 안드레이 카파시가 소개한 혁신적인 프로그래밍 방식으로, \n        AI를 활용해 자연어로 기능을 설명하면 코드를 자동으로 생성하는 기술입니다.\n        AI와 코딩의 결합에 대한 깊은 이해를 바탕으로 여러분이 자연어로 코드를 생성하는 방식을 이해할 수 있도록 돕겠습니다.\n        "

def ConceptCoach.assemble_prompt (prompt : String) : String :=
  "\n        당신은 \x27" ++ ConceptCoach.coach_name ++ "\x27이라는 바이브 코딩 개념 전문 코치입니다.\n        " ++ ConceptCoach.coach_intro ++ "\n        \n        " ++ prompt ++ "\n        \n        설명 결과에 바이브 코딩의 기본 개념, 원리, 장단점을 반드시 포함해 주세요.\n        가능한 한 복잡한 용어는 피하고, 초보자도 이해할 수 있는 명확한 설명을 제공하세요.\n        그러나 필요한 경우 기술적 정확성을 위해 적절한 기술 용어도 사용하세요.\n        \n        응답 형식:\n        - 명확한 제목과 구조화된 내용\n        - 구체적인 예시와 실제 사용 사례\n        - 단계별 설명과 실용적인 팁\n        - 마크다운 형식으로 가독성 있게 작성\n        "

def ConceptCoach.create_concept_prompt (input_data : InputData) : String :=
  "\n        다음 바이브 코딩 관련 질문에 대해 기초적인 설명을 제공해주세요:\n        \n        " ++ (InputData.get input_data "question") ++ "\n        \n        다음 항목을 포함하는 기초 설명을 제공해주세요:\n        1. 바이브 코딩의 정의와 핵심 원리\n        2. 기존 코딩 방식과 바이브 코딩의 차이점\n        3. 바이브 코딩의 작동 방식 (자연어 처리, 코드 생성 과정)\n        4. 바이브 코딩의 장단점과 적합한 활용 사례\n        5. 효과적인 바이브 코딩을 위한 기본 요소\n        "

def ConceptCoach.create_project_concept_prompt (input_data : InputData) : String :=
  "\n        다음 프로젝트에 바이브 코딩을 적용하기 위한 개념적 접근법을 설명해주세요:\n        \n        프로젝트 설명:\n        " ++ (InputData.get input_data "project_description") ++ "\n        \n        기술 스택:\n        " ++ (InputData.get input_data "tech_stack") ++ "\n        \n        다음 항목을 포함하는 개념 설명을 제공해주세요:\n        1. 프로젝트에 바이브 코딩을 적용할 수 있는 영역 식별\n        2. 바이브 코딩이 이 프로젝트에 가져올 수 있는 이점\n        3. 고려해야 할 기술적 제약 및 한계\n        4. 프로젝트 구현을 위한 바이브 코딩 접근 방식\n        5. 바이브 코딩과 기존 개발 방식의 효과적인 조합 방법\n        "

def ConceptCoach.create_code_concept_prompt (input_data : InputData) : String :=
  "\n        다음 코드 생성 요청에 대한 바이브 코딩 개념적 분석을 제공해주세요:\n        \n        코드 요청:\n        " ++ (InputData.get input_data "code_request") ++ "\n        \n        프로그래밍 언어:\n        " ++ (InputData.get input_data "programming_language") ++ "\n        \n        다음 항목을 포함한 개념 분석을 제공해주세요:\n        \n        1. 요청 분석\n           - 핵심 기능 요구사항 식별\n           - 필요한 코드 컴포넌트 및 구조\n           - 잠재적 복잡성 및 고려사항\n        \n        2. 바이브 코딩 적용 방식\n           - 자연어 요청을 코드 구조로 변환하는 과정\n           - 코드 생성을 위한 개념적 모델\n           - 요청의 모호성 처리 방법\n        \n        3. 생성될 코드의 구조적 이해\n           - 예상되는 핵심 알고리즘 및 패턴\n           - 데이터 흐름 및 상호작용\n           - 코드 최적화 고려사항\n        "

def ConceptCoach.create_learning_concept_prompt (input_data : InputData) : String :=
  "\n        바이브 코딩 학습을 위한 개념적 기초와 접근법을 설명해주세요:\n        \n        현재 지식 수준:\n        " ++ (InputData.get input_data "current_level") ++ "\n        \n        학습 목표:\n        " ++ (InputData.get input_data "learning_goals") ++ "\n        \n        다음 항목을 포함한 학습 개념 설명을 제공해주세요:\n        \n        1. 바이브 코딩 학습의 기초 개념\n           - 핵심 지식 영역 및 기본 원리\n           - 자연어와 코드 간의 연결 이해\n           - 효과적인 프롬프트 작성의 개념적 기초\n        \n        2. 학습 단계별 개념적 접근\n           - 입문자를 위한 핵심 개념\n           - 중급 학습자를 위한 심화 원리\n           - 고급 실무 적용을 위한 개념적 프레임워크\n        \n        3. 바이브 코딩 역량 개발 개념\n           - 효과적인 자연어 프롬프트 작성 원리\n           - 코드 결과 이해 및 평가 방법\n           - 바이브 코딩과 기존 코딩 지식의 연계\n        "

def ConceptCoach.create_general_concept_prompt (input_data : InputData) (service_type : String) : String :=
  "\n        다음 " ++ service_type ++ " 요청에 대해 바이브 코딩 개념 관점에서 설명해주세요:\n        \n        요청 내용:\n        " ++ (InputData.reprStr input_data) ++ "\n        \n        바이브 코딩의 기본 개념, 원리, 적용 방법을 포함한 기초 설명을 제공해주세요.\n        "

def PromptEngineeringCoach.coach_intro : String :=
  "\n        안녕하세요, 이서연 프롬프트 엔지니어링 코치입니다.\n        저는 효과적인 바이브 코딩 프롬프트 설계와 패턴을 전문으로 합니다.\n        8년간의 AI 프롬프트 엔지니어링과 NLP 경험을 통해 여러분이 원하는 코드를 정확히 생성하는 프롬프트 작성법을 안내해 드리겠습니다.\n        "

def PromptEngineeringCoach.assemble_prompt (previous_explanation : String) (prompt : String) : String :=
  "\n        당신은 \x27" ++ PromptEngineeringCoach.coach_name ++ "\x27이라는 프롬프트 엔지니어링 전문 코치입니다.\n        " ++ PromptEngineeringCoach.coach_intro ++ "\n        \n        바이브 코딩 개념 코치가 제공한 다음 설명을 검토하고, 프롬프트 설계 관점에서 보완해주세요:\n        \n        === 개념 코치의 설명 ===\n        " ++ previous_explanation ++ "\n        === 설명 끝 ===\n        \n        " ++ prompt ++ "\n        \n        효과적인 프롬프트 구조와 패턴, 구체적인 예시, 최적화 전략을 반드시 포함해 주세요.\n        \n        응답 형식:\n        - 실용적인 프롬프트 템플릿과 예시\n        - 단계별 프롬프트 작성 가이드\n        - 일반적인 실수와 개선 방법\n        - 마크다운 형식으로 코드 블록과 예시 포함\n        "

def PromptEngineeringCoach.create_concept_prompt_design (previous_explanation : String) (input_data : InputData) : String :=
  "\n        바이브 코딩 개념과 관련된 효과적인 프롬프트 설계 방법을 제안해주세요:\n        \n        1. 바이브 코딩에 최적화된 프롬프트 구조\n           - 명확한 프롬프트 구성 요소\n           - 효과적인 프롬프트 템플릿\n           - 프롬프트의 상세도와 명확성 균형\n        \n        2. 바이브 코딩 프롬프트 패턴 및 예시\n           - 다양한 코딩 작업을 위한 프롬프트 패턴\n           - 실제 사용 사례별 예시 프롬프트\n           - 일반적인 프롬프트 실수와 개선 방법\n        \n        3. 프롬프트 최적화 기법\n           - 명확성과 상세함 사이의 균형\n           - 모호성 줄이는 방법\n           - 반복적 개선을 통한 최적화\n        \n        질문:\n        " ++ (InputData.get input_data "question") ++ "\n        "

def PromptEngineeringCoach.create_project_prompt_design (previous_explanation : String) (input_data : InputData) : String :=
  "\n        프로젝트 설계를 위한 효과적인 바이브 코딩 프롬프트를 설계해주세요:\n        \n        1. 프로젝트 요구사항을 프롬프트로 변환하는 방법\n           - 프로젝트 범위 명확히 정의하기\n           - 기능적/비기능적 요구사항 명시\n           - 기술 스택 및 제약조건 포함 방법\n        \n        2. 프로젝트 구조화 프롬프트 패턴\n           - 아키텍처 설계를 위한 프롬프트 템플릿\n           - 컴포넌트 분해를 위한 프롬프트 전략\n           - 순차적 개발을 위한 프롬프트 체인\n        \n        3. 구체적인 프로젝트 프롬프트 예시\n           - 이 프로젝트에 적용할 수 있는 실제 프롬프트\n           - 프롬프트 변형 및 반복 전략\n           - 프롬프트 철저성 체크리스트\n        \n        프로젝트 설명:\n        " ++ (InputData.get input_data "project_description") ++ "\n        \n        기술 스택:\n        " ++ (InputData.get input_data "tech_stack") ++ "\n        "

def PromptEngineeringCoach.create_code_prompt_design (previous_explanation : String) (input_data : InputData) : String :=
  "\n        코드 생성을 위한 최적화된 바이브 코딩 프롬프트를 설계해주세요:\n        \n        1. 코드 생성 프롬프트 구조 최적화\n           - 명확한 기능 요구사항 표현 방법\n           - 입출력 예시 포함 방법\n           - 코드 스타일 및 품질 지시 방법\n        \n        2. 프로그래밍 언어별 프롬프트 패턴\n           - " ++ (InputData.get input_data "programming_language") ++ "에 최적화된 프롬프트 구조\n           - 언어별 특수 고려사항\n           - 언어 관용구 및 패턴 명시 방법\n        \n        3. 요청에 대한 구체적 프롬프트 예시\n           - 이 코드 요청을 위한 최적화된 프롬프트 작성\n           - 잠재적 문제점 해결을 위한 추가 지시사항\n           - 반복적 개선을 위한 프롬프트 변형\n        \n        코드 요청:\n        " ++ (InputData.get input_data "code_request") ++ "\n        \n        프로그래밍 언어:\n        " ++ (InputData.get input_data "programming_language") ++ "\n        "

def PromptEngineeringCoach.create_learning_prompt_design (previous_explanation : String) (input_data : InputData) : String :=
  "\n        바이브 코딩 학습을 위한 효과적인 프롬프트 패턴과 설계 방법을 제안해주세요:\n        \n        1. 학습 단계별 프롬프트 설계 전략\n           - 초보자를 위한 간단한 프롬프트 패턴\n           - 중급자를 위한 확장 가능한 프롬프트 템플릿\n           - 고급자를 위한 복잡한 시스템 설계 프롬프트\n        \n        2. 효과적인 학습 프롬프트 패턴\n           - 설명 요청 프롬프트 패턴\n           - 코드 생성 프롬프트 패턴\n           - 코드 평가 및 개선 프롬프트 패턴\n        \n        3. 프롬프트 작성 역량 개발 가이드\n           - 프롬프트 작성 연습 방법\n           - 피드백 기반 개선 프로세스\n           - 프롬프트 패턴 라이브러리 구축 방법\n        \n        현재 지식 수준:\n        " ++ (InputData.get input_data "current_level") ++ "\n        \n        학습 목표:\n        " ++ (InputData.get input_data "learning_goals") ++ "\n        "

def PromptEngineeringCoach.create_general_prompt_design (previous_explanation : String) (input_data : InputData) (service_type : String) : String :=
  "\n        다음 " ++ service_type ++ " 요청에 대해 프롬프트 설계 관점에서 분석해주세요:\n        \n        요청 내용:\n        " ++ (InputData.reprStr input_data) ++ "\n        \n        효과적인 프롬프트 구조, 패턴, 예시를 구체적으로 제시해주세요.\n        "

def ImplementationCoach.coach_intro : String :=
  "\n        안녕하세요, 박지훈 코드 구현 코치입니다.\n        저는 바이브 코딩으로 생성된 코드의 구현, 최적화, 디버깅을 전문으로 합니다.\n        10년간의 소프트웨어 개발 및 AI 코드 최적화 경험을 통해 효율적이고 실용적인 코드를 제공하겠습니다.\n        "

def ImplementationCoach.assemble_prompt (previous_design : String) (prompt : String) : String :=
  "\n        당신은 \x27" ++ ImplementationCoach.coach_name ++ "\x27이라는 코드 구현 전문 코치입니다.\n        " ++ ImplementationCoach.coach_intro ++ "\n        \n        개념 코치와 프롬프트 코치가 제공한, 다음 분석을 검토하고 최종적으로 코드 구현을 완성해주세요:\n        \n        === 이전 코치들의 분석 ===\n        " ++ previous_design ++ "\n        === 분석 끝 ===\n        \n        " ++ prompt ++ "\n        \n        최종 결과에는 다음 세 코치의 관점이 균형있게 통합되어야 합니다:\n        1. 개념 코치 (바이브 코딩의 기본 개념 및 원리)\n        2. 프롬프트 코치 (효과적인 프롬프트 설계 및 패턴)\n        3. 구현 코치 (실제 코드 구현 및 최적화)\n        \n        실행 가능하고 최적화된 코드, 사용 방법, 주의 사항을 포함한 종합적인 구현 가이드를 제공해주세요.\n        코드는 Markdown 형식으로 ```python (또는 해당 언어) 코드 블록 안에 포함해주세요.\n        필요한 경우 코드 블록 외부에 설명을 추가해주세요.\n        \n        응답 형식:\n        - 완전한 실행 가능한 코드 제공\n        - 코드 설명과 사용법 포함\n        - 성능 최적화 팁과 주의사항\n        - 마크다운 형식으로 구조화된 가이드\n        "

def ImplementationCoach.create_concept_implementation (previous_design : String) (input_data : InputData) : String :=
  "\n        바이브 코딩 개념을 실제 코드 구현으로 보여주는 예제를 제공해주세요:\n        \n        1. 바이브 코딩 개념 구현 예시\n           - 개념을 설명하는 간단한 데모 코드\n           - 바이브 코딩을 사용하는 기본 프레임워크\n           - 자연어와 코드 변환 과정의 실제 예시\n        \n        2. 바이브 코딩 워크플로우 구현\n           - 프롬프트 작성부터 코드 생성까지 전체 과정\n           - 실제 구현을 위한 코드 스니펫\n           - 오류 처리 및 개선 메커니즘\n        \n        3. 구현 시 주의사항 및 최적화 포인트\n           - 일반적인 구현 문제 해결 방법\n           - 코드 품질 향상 기법\n           - 유지보수 고려사항\n        \n        질문:\n        " ++ (InputData.get input_data "question") ++ "\n        "

def ImplementationCoach.create_project_implementation (previous_design : String) (input_data : InputData) : String :=
  "\n        프로젝트를 위한 바이브 코딩 구현 방법과 실제 코드를 제공해주세요:\n        \n        1. 프로젝트 구조 및 핵심 컴포넌트 구현\n           - 아키텍처 구현을 위한 코드 스켈레톤\n           - 주요 모듈 및 클래스 구현\n           - 인터페이스 및 데이터 모델 정의\n        \n        2. 핵심 기능 구현 예시\n           - 중요 기능의 상세 코드 구현\n           - 기능 간 통합 및 데이터 흐름\n           - 오류 처리 및 예외 관리\n        \n        3. 성능 최적화 및 품질 개선\n           - 코드 효율성 향상 기법\n           - 리팩토링 및 코드 품질 개선 접근법\n           - 테스트 및 검증 전략\n        \n        프로젝트 설명:\n        " ++ (InputData.get input_data "project_description") ++ "\n        \n        기술 스택:\n        " ++ (InputData.get input_data "tech_stack") ++ "\n        "

def ImplementationCoach.create_code_implementation (previous_design : String) (input_data : InputData) : String :=
  "\n        요청한 코드의 실제 구현과 최적화된 버전을 제공해주세요:\n        \n        1. 기본 코드 구현\n           - 요청된 기능의 완전한 코드 구현\n           - 주요 로직 및 알고리즘 설명\n           - 필요한 의존성 및 설정\n        \n        2. 코드 최적화 및 개선\n           - 성능 최적화 포인트\n           - 클린 코드 원칙 적용\n           - 견고성 및 예외 처리 강화\n        \n        3. 사용 방법 및 예시\n           - 코드 사용법 및 호출 방법\n           - 실행 예시 및 예상 결과\n           - 다양한 시나리오별 활용 방법\n        \n        코드 요청:\n        " ++ (InputData.get input_data "code_request") ++ "\n        \n        프로그래밍 언어:\n        " ++ (InputData.get input_data "programming_language") ++ "\n        "

def ImplementationCoach.create_learning_implementation (previous_design : String) (input_data : InputData) : String :=
  "\n        바이브 코딩 학습을 위한 실제 코드 예제와 실습 가이드를 제공해주세요:\n        \n        1. 단계별 학습을 위한 코드 구현 예제\n           - 초보자용 기본 바이브 코딩 예제\n           - 중급자용 확장 예제\n           - 고급자용 복잡한 시스템 예제\n        \n        2. 실습 프로젝트 구현 가이드\n           - 단계별 미니 프로젝트 구현 코드\n           - 핵심 스킬 개발을 위한 연습 문제\n           - 포트폴리오 구축을 위한 프로젝트 아이디어\n        \n        3. 자기 주도 학습을 위한 코드 리소스\n           - 참고할 만한 코드 저장소 및 프로젝트\n           - 학습 진행 추적 도구 구현\n           - 스터디 그룹 및 코드 리뷰 활용 방법\n        \n        현재 지식 수준:\n        " ++ (InputData.get input_data "current_level") ++ "\n        \n        학습 목표:\n        " ++ (InputData.get input_data "learning_goals") ++ "\n        "

def ImplementationCoach.create_general_implementation (previous_design : String) (input_data : InputData) (service_type : String) : String :=
  "\n        다음 " ++ service_type ++ " 요청에 대한 구체적인 코드 구현과 최적화 방안을 제공해주세요:\n        \n        요청 내용:\n        " ++ (InputData.reprStr input_data) ++ "\n        \n        실행 가능한 코드 구현, 최적화 포인트, 사용 방법을 구체적으로 제시해주세요.\n        "

/- ===== Stage runners ===== -/

/-- The no-response fallback shared by all three stage runners. -/
def noResponseMessage : String := "AI 모델로부터 응답을 받지 못했습니다. 다시 시도해주세요."

/-- The `if/elif` template dispatch of `ConceptCoach.explain`. -/
def ConceptCoach.select_prompt (service_type : String) (input_data : InputData) : String :=
  if service_type = "개념 이해" then ConceptCoach.create_concept_prompt input_data
  else if service_type = "프로젝트 설계" then ConceptCoach.create_project_concept_prompt input_data
  else if service_type = "코드 생성" then ConceptCoach.create_code_concept_prompt input_data
  else if service_type = "학습 계획" then ConceptCoach.create_learning_concept_prompt input_data
  else ConceptCoach.create_general_concept_prompt input_data service_type

/-- The full prompt `explain` sends to the external call: the selected
template wrapped with the coach persona text. -/
def ConceptCoach.full_prompt (service_type : String) (input_data : InputData) : String :=
  ConceptCoach.assemble_prompt (ConceptCoach.select_prompt service_type input_data)

/-- `ConceptCoach.explain`: build the prompt, invoke the external call,
return the text, the no-response fallback, or the fixed error message. -/
def ConceptCoach.explain (gen : String → GenResult) (service_type : String)
    (input_data : InputData) : String :=
  match gen (ConceptCoach.full_prompt service_type input_data) with
  | GenResult.returned (some t) => if t = "" then noResponseMessage else t
  | GenResult.returned none => noResponseMessage
  | GenResult.raised e => "개념 분석 중 오류가 발생했습니다: " ++ e

/-- The `if/elif` template dispatch of `PromptEngineeringCoach.design`. -/
def PromptEngineeringCoach.select_prompt (previous_explanation : String)
    (service_type : String) (input_data : InputData) : String :=
  if service_type = "개념 이해" then
    PromptEngineeringCoach.create_concept_prompt_design previous_explanation input_data
  else if service_type = "프로젝트 설계" then
    PromptEngineeringCoach.create_project_prompt_design previous_explanation input_data
  else if service_type = "코드 생성" then
    PromptEngineeringCoach.create_code_prompt_design previous_explanation input_data
  else if service_type = "학습 계획" then
    PromptEngineeringCoach.create_learning_prompt_design previous_explanation input_data
  else
    PromptEngineeringCoach.create_general_prompt_design previous_explanation input_data service_type

/-- The full prompt `design` sends to the external call; it embeds the
previous stage's text verbatim between the two `===` marker lines. -/
def PromptEngineeringCoach.full_prompt (previous_explanation : String)
    (service_type : String) (input_data : InputData) : String :=
  PromptEngineeringCoach.assemble_prompt previous_explanation
    (PromptEngineeringCoach.select_prompt previous_explanation service_type input_data)

/-- `PromptEngineeringCoach.design`. -/
def PromptEngineeringCoach.design (gen : String → GenResult) (previous_explanation : String)
    (service_type : String) (input_data : InputData) : String :=
  match gen (PromptEngineeringCoach.full_prompt previous_explanation service_type input_data) with
  | GenResult.returned (some t) => if t = "" then noResponseMessage else t
  | GenResult.returned none => noResponseMessage
  | GenResult.raised e => "프롬프트 설계 중 오류가 발생했습니다: " ++ e

/-- The `if/elif` template dispatch of `ImplementationCoach.implement`. -/
def ImplementationCoach.select_prompt (previous_design : String)
    (service_type : String) (input_data : InputData) : String :=
  if service_type = "개념 이해" then
    ImplementationCoach.create_concept_implementation previous_design input_data
  else if service_type = "프로젝트 설계" then
    ImplementationCoach.create_project_implementation previous_design input_data
  else if service_type = "코드 생성" then
    ImplementationCoach.create_code_implementation previous_design input_data
  else if service_type = "학습 계획" then
    ImplementationCoach.create_learning_implementation previous_design input_data
  else
    ImplementationCoach.create_general_implementation previous_design input_data service_type

/-- The full prompt `implement` sends to the external call; it embeds the
previous stage's text verbatim between the two `===` marker lines. -/
def ImplementationCoach.full_prompt (previous_design : String)
    (service_type : String) (input_data : InputData) : String :=
  ImplementationCoach.assemble_prompt previous_design
    (ImplementationCoach.select_prompt previous_design service_type input_data)

/-- `ImplementationCoach.implement`. -/
def ImplementationCoach.implement (gen : String → GenResult) (previous_design : String)
    (service_type : String) (input_data : InputData) : String :=
  match gen (ImplementationCoach.full_prompt previous_design service_type input_data) with
  | GenResult.returned (some t) => if t = "" then noResponseMessage else t
  | GenResult.returned none => noResponseMessage
  | GenResult.raised e => "코드 구현 중 오류가 발생했습니다: " ++ e

/- ===== Pipeline coordinator ===== -/

/-- The uniform top-level catch-all text of `get_coding_advice`. -/
def systemErrorMessage : String :=
  "시스템 오류가 발생했습니다. API 키를 확인하고 다시 시도해주세요."

/-- `VibeCodingTeam.get_coding_advice`, generic in the three stage calls
(a stage call that raises an exception `e` out of itself is an
`Except.error e`, caught by the coordinator's per-stage handler; the real
stage runners never do). `fault` models an unexpected error escaping the
three stage-level handlers (the outer `except`); `workflow_logs` is the
coordinator instance's accumulated log, returned updated. -/
def VibeCodingTeam.get_coding_advice
    (fault : Option String) (timestamp : String)
    (explainF : String → InputData → Except String String)
    (designF : String → String → InputData → Except String String)
    (implementF : String → String → InputData → Except String String)
    (service_type : String) (input_data : InputData)
    (workflow_logs : List WorkflowLog) :
    AdviceResult × List WorkflowLog :=
  match fault with
  | some _ =>
    (⟨systemErrorMessage, systemErrorMessage, systemErrorMessage⟩, workflow_logs)
  | none =>
    let step1 : String × StepRecord :=
      match explainF service_type input_data with
      | Except.ok t => (t, ⟨"ConceptCoach", "concept_explanation", "success", none⟩)
      | Except.error e =>
        ("개념 분석 중 오류가 발생했습니다. 다시 시도해주세요.",
         ⟨"ConceptCoach", "concept_explanation", "error", some e⟩)
    let concept_explanation := step1.1
    let step2 : String × StepRecord :=
      match designF concept_explanation service_type input_data with
      | Except.ok t => (t, ⟨"PromptEngineeringCoach", "prompt_design", "success", none⟩)
      | Except.error e =>
        ("프롬프트 설계 중 오류가 발생했습니다. 다시 시도해주세요.",
         ⟨"PromptEngineeringCoach", "prompt_design", "error", some e⟩)
    let prompt_design := step2.1
    let step3 : String × StepRecord :=
      match implementF prompt_design service_type input_data with
      | Except.ok t => (t, ⟨"ImplementationCoach", "implementation", "success", none⟩)
      | Except.error e =>
        ("코드 구현 중 오류가 발생했습니다. 다시 시도해주세요.",
         ⟨"ImplementationCoach", "implementation", "error", some e⟩)
    let final_implementation := step3.1
    let workflow_log : WorkflowLog :=
      ⟨service_type, timestamp,
       ["ConceptCoach", "PromptEngineeringCoach", "ImplementationCoach"],
       [step1.2, step2.2, step3.2]⟩
    (⟨concept_explanation, prompt_design, final_implementation⟩,
     workflow_logs ++ [workflow_log])

/-- The coordinator instantiated with the three real stage runners, each
driven by its own external-call behaviour (`gen1`/`gen2`/`gen3` are the
service's responses to the first, second and third call of the run). -/
def run_pipeline (fault : Option String) (timestamp : String)
    (gen1 gen2 gen3 : String → GenResult)
    (service_type : String) (input_data : InputData)
    (workflow_logs : List WorkflowLog) :
    AdviceResult × List WorkflowLog :=
  VibeCodingTeam.get_coding_advice fault timestamp
    (fun st inp => Except.ok (ConceptCoach.explain gen1 st inp))
    (fun prev st inp => Except.ok (PromptEngineeringCoach.design gen2 prev st inp))
    (fun prev st inp => Except.ok (ImplementationCoach.implement gen3 prev st inp))
    service_type input_data workflow_logs

/- ===== Code-block extraction (`main`, download button) =====
`re.findall(r'```(?:\w+)?\n([\s\S]+?)\n```', text)` followed by
`"\n\n".join(...)`, modelled over the string's character list. `\w` is
modelled as the ASCII word characters (the language tags that occur are
ASCII). -/

/-- The backtick character of the triple-backtick fences. -/
def backquote : Char := Char.ofNat 96

/-- `\w`: an ASCII word character. -/
def isWordChar (c : Char) : Bool := c.isAlphanum || c = '_'

/-- Does the text start with the closing marker `"\n` + three backticks? -/
def startsClose : List Char → Bool
  | a :: b :: c :: d :: _ =>
    a = '\n' && b = backquote && c = backquote && d = backquote
  | _ => false

/-- Split at the first occurrence of the closing marker: `some (p, r)` with
the input `= p ++ marker ++ r` and `p` shortest (the lazy `+?`). -/
def splitAtClose : List Char → Option (List Char × List Char)
  | [] => none
  | c :: cs =>
    if startsClose (c :: cs) then some ([], cs.drop 3)
    else
      match splitAtClose cs with
      | some (p, r) => some (c :: p, r)
      | none => none

/-- Does the text contain the closing marker anywhere? -/
def containsCloseB : List Char → Bool
  | [] => false
  | c :: cs => startsClose (c :: cs) || containsCloseB cs

/-- Match the fence pattern anchored at the head: three backticks, an
optional word-character language tag, a newline, a shortest nonempty
content (the capture group) and the closing marker; returns the captured
content and the text after the match. -/
def matchFenceAt : List Char → Option (List Char × List Char)
  | a :: b :: c :: cs =>
    if a = backquote ∧ b = backquote ∧ c = backquote then
      match cs.dropWhile isWordChar with
      | nl :: c0 :: cs2 =>
        if nl = '\n' then
          match splitAtClose cs2 with
          | some (p, rest) => some (c0 :: p, rest)
          | none => none
        else none
      | _ => none
    else none
  | _ => none

/-- `findall`: scan left to right; at a match, emit the capture and resume
after the consumed match; otherwise advance one character. Fuel-indexed
(one unit per scanned position); `findAll` supplies sufficient fuel. -/
def findAllAux : Nat → List Char → List (List Char)
  | 0, _ => []
  | _ + 1, [] => []
  | fuel + 1, c :: cs =>
    match matchFenceAt (c :: cs) with
    | some (content, rest) => content :: findAllAux fuel rest
    | none => findAllAux fuel cs

/-- All captured code blocks of `text`, in order of appearance. -/
def findAll (l : List Char) : List (List Char) :=
  findAllAux l.length l

/-- `"\n\n".join`: concatenate the blocks with a blank-line separator. -/
def joinBlocks : List (List Char) → List Char
  | [] => []
  | [b] => b
  | b :: bs => b ++ ('\n' :: '\n' :: joinBlocks bs)

/-- The extracted blocks of the implementation text (`code_matches`). -/
def extract_code_blocks (text : String) : List (List Char) :=
  findAll text.data

/-- `combined_code`: the downloadable artifact built from the blocks. -/
def combined_code (text : String) : String :=
  String.mk (joinBlocks (extract_code_blocks text))

/-- A fenced block as written in text: three backticks, a language tag, a
newline, the content, a newline, three backticks. -/
def fence (tag content : List Char) : List Char :=
  backquote :: backquote :: backquote ::
    (tag ++ ('\n' :: (content ++ ('\n' :: backquote :: backquote :: backquote :: []))))

/-- A document interleaving fenced blocks with surrounding text: each piece
is (separator text, language tag, block content), followed by a final tail. -/
def fencedDoc : List (List Char × List Char × List Char) → List Char → List Char
  | [], tail => tail
  | (sep, tag, content) :: ps, tail => sep ++ (fence tag content ++ fencedDoc ps tail)

/-- Does any position of the text start a regex match of the fence pattern
(i.e. does the text contain a fenced code block)? -/
def containsFenceB : List Char → Bool
  | [] => false
  | c :: cs => (matchFenceAt (c :: cs)).isSome || containsFenceB cs

/- ===== File-extension lookup (`get_file_extension`) ===== -/

/-- The fixed language-name-to-extension table. -/
def extensions : List (String × String) :=
  [("python", "py"), ("javascript", "js"), ("typescript", "ts"),
   ("java", "java"), ("c#", "cs"), ("go", "go"), ("ruby", "rb"),
   ("php", "php"), ("swift", "swift"), ("kotlin", "kt"), ("html", "html"),
   ("css", "css"), ("sql", "sql"), ("r", "r"), ("rust", "rs"),
   ("c++", "cpp"), ("c", "c"), ("scala", "scala"), ("dart", "dart"),
   ("powershell", "ps1"), ("bash", "sh"), ("perl", "pl")]

/-- Python's `str.lower()`, modelled characterwise for ASCII letters (the
table's keys are ASCII; non-ASCII characters are left unchanged). -/
def pyLower (s : String) : String :=
  String.mk (s.data.map Char.toLower)

/-- `extensions.get(language.lower(), "txt")`. -/
def get_file_extension (language : String) : String :=
  match extensions.lookup (pyLower language) with
  | some e => e
  | none => "txt"

/- ===== Helper lemmas ===== -/

theorem str_ne_empty_of_left (s t : String) (h : s ≠ "") : s ++ t ≠ "" := by
  intro he
  apply h
  have hd := congrArg String.data he
  rw [String.data_append] at hd
  have hs : s.data = [] := (List.append_eq_nil.mp hd).1
  exact String.ext hs

theorem str_ne_empty_of_right (s t : String) (h : t ≠ "") : s ++ t ≠ "" := by
  intro he
  apply h
  have hd := congrArg String.data he
  rw [String.data_append] at hd
  have hs : t.data = [] := (List.append_eq_nil.mp hd).2
  exact String.ext hs

theorem exists_split_appL (s t x : String) (h : ∃ p q, s = p ++ x ++ q) :
    ∃ p q, s ++ t = p ++ x ++ q := by
  obtain ⟨p, q, hpq⟩ := h
  exact ⟨p, q ++ t, by rw [hpq]; simp [String.append_assoc]⟩

theorem dropWhile_length_le (p : Char → Bool) : ∀ l : List Char,
    (l.dropWhile p).length ≤ l.length
  | [] => Nat.le_refl 0
  | c :: cs => by
    rw [List.dropWhile_cons]
    by_cases h : p c = true
    · simp only [h, if_true]
      exact Nat.le_trans (dropWhile_length_le p cs) (Nat.le_succ _)
    · simp only [h, if_false]
      exact Nat.le_refl _

theorem dropWhile_word_append (tag X : List Char) (ht : tag.all isWordChar = true) :
    (tag ++ ('\n' :: X)).dropWhile isWordChar = '\n' :: X := by
  induction tag with
  | nil => simp [List.dropWhile_cons, isWordChar]
  | cons c t ih =>
    rw [List.all_cons, Bool.and_eq_true] at ht
    simp [List.cons_append, List.dropWhile_cons, ht.1, ih ht.2]

theorem startsClose_shape : ∀ (l : List Char), startsClose l = true →
    ∃ r, l = '\n' :: backquote :: backquote :: backquote :: r
  | [], h => by simp [startsClose] at h
  | [_], h => by simp [startsClose] at h
  | [_, _], h => by simp [startsClose] at h
  | [_, _, _], h => by simp [startsClose] at h
  | a :: b :: c :: d :: rest, h => by
    simp only [startsClose, Bool.and_eq_true, decide_eq_true_eq] at h
    obtain ⟨⟨⟨h1, h2⟩, h3⟩, h4⟩ := h
    subst h1; subst h2; subst h3; subst h4
    exact ⟨rest, rfl⟩

theorem splitAtClose_eq : ∀ (l p r : List Char), splitAtClose l = some (p, r) →
    l = p ++ ('\n' :: backquote :: backquote :: backquote :: r)
  | [], p, r, h => by simp [splitAtClose] at h
  | c :: cs, p, r, h => by
    rw [splitAtClose] at h
    by_cases hs : startsClose (c :: cs) = true
    · rw [if_pos hs] at h
      obtain ⟨rest, hshape⟩ := startsClose_shape _ hs
      obtain ⟨hc, hcs⟩ := List.cons.injEq .. ▸ hshape
      subst hc; subst hcs
      simp only [List.drop_succ_cons, List.drop_zero] at h
      injection h with h2
      injection h2 with hp hr
      subst hp; subst hr
      simp
    · rw [if_neg hs] at h
      match hsp : splitAtClose cs with
      | none => rw [hsp] at h; simp at h
      | some (p', r') =>
        rw [hsp] at h
        injection h with h2
        injection h2 with hp hr
        subst hp; subst hr
        have ih := splitAtClose_eq cs p' r' hsp
        rw [List.cons_append, ← ih]

theorem splitAtClose_append : ∀ (p r : List Char), containsCloseB p = false →
    splitAtClose (p ++ ('\n' :: backquote :: backquote :: backquote :: r)) = some (p, r)
  | [], r, _ => by
    rw [List.nil_append, splitAtClose, if_pos (by simp [startsClose])]
    simp
  | c :: p', r, hp => by
    rw [containsCloseB, Bool.or_eq_false_iff] at hp
    have hs : startsClose (c :: (p' ++ ('\n' :: backquote :: backquote :: backquote :: r))) = false := by
      match p' with
      | [] => simp [startsClose, backquote]
      | [d] => simp [startsClose, backquote]
      | [d, e] => simp [startsClose, backquote]
      | d :: e :: f :: rest =>
        simp only [startsClose, List.cons_append] at hp ⊢
        exact hp.1
    rw [List.cons_append, splitAtClose, if_neg (by simp [hs]),
      splitAtClose_append p' r hp.2]

theorem matchFenceAt_fence (tag content r : List Char)
    (ht : tag.all isWordChar = true) (hc : content ≠ [])
    (hcc : containsCloseB content = false) :
    matchFenceAt (fence tag content ++ r) = some (content, r) := by
  obtain ⟨c0, ctail, rfl⟩ : ∃ c0 ctail, content = c0 :: ctail := by
    match content, hc with
    | c0 :: ctail, _ => exact ⟨c0, ctail, rfl⟩
  rw [containsCloseB, Bool.or_eq_false_iff] at hcc
  have hshape : fence tag (c0 :: ctail) ++ r =
      backquote :: backquote :: backquote ::
        (tag ++ ('\n' :: (c0 :: (ctail ++ ('\n' :: backquote :: backquote :: backquote :: r))))) := by
    simp [fence, List.cons_append, List.append_assoc]
  rw [hshape, matchFenceAt, if_pos ⟨rfl, rfl, rfl⟩]
  have hdrop : (tag ++ ('\n' :: (c0 :: (ctail ++ ('\n' :: backquote :: backquote :: backquote :: r))))).dropWhile isWordChar
      = '\n' :: (c0 :: (ctail ++ ('\n' :: backquote :: backquote :: backquote :: r))) :=
    dropWhile_word_append tag _ ht
  rw [hdrop]
  dsimp only
  rw [if_pos rfl, splitAtClose_append ctail r hcc.2]

theorem matchFenceAt_none_of_ne (c : Char) (cs : List Char) (h : c ≠ backquote) :
    matchFenceAt (c :: cs) = none := by
  match cs with
  | [] => rfl
  | [b] => rfl
  | b :: d :: cs' =>
    rw [matchFenceAt, if_neg]
    intro hcond
    exact h hcond.1

theorem matchFenceAt_some_length : ∀ (l content rest : List Char),
    matchFenceAt l = some (content, rest) → rest.length < l.length := by
  intro l content rest h
  match l with
  | [] => simp [matchFenceAt] at h
  | [a] => simp [matchFenceAt] at h
  | [a, b] => simp [matchFenceAt] at h
  | a :: b :: c :: cs =>
    rw [matchFenceAt] at h
    by_cases hcond : a = backquote ∧ b = backquote ∧ c = backquote
    · rw [if_pos hcond] at h
      match hdw : cs.dropWhile isWordChar with
      | [] => rw [hdw] at h; simp at h
      | [nl] => rw [hdw] at h; simp at h
      | nl :: c0 :: cs2 =>
        rw [hdw] at h
        dsimp only at h
        by_cases hnl : nl = '\n'
        · rw [if_pos hnl] at h
          match hsp : splitAtClose cs2 with
          | none => rw [hsp] at h; simp at h
          | some (p, rest') =>
            rw [hsp] at h
            injection h with h2
            injection h2 with hp hr
            subst hr
            have he := splitAtClose_eq cs2 p rest' hsp
            have h1 : rest'.length + 4 + p.length = cs2.length := by
              rw [he]; simp [List.length_append]; omega
            have h2 : cs2.length + 2 ≤ cs.length := by
              have := dropWhile_length_le isWordChar cs
              rw [hdw] at this
              simp at this
              omega
            simp only [List.length_cons]
            omega
        · rw [if_neg hnl] at h; simp at h
    · rw [if_neg hcond] at h; simp at h

theorem findAllAux_nil (f : Nat) : findAllAux f [] = [] := by
  cases f <;> rfl

theorem findAllAux_congr : ∀ (f1 : Nat) (l : List Char) (f2 : Nat),
    l.length ≤ f1 → l.length ≤ f2 → findAllAux f1 l = findAllAux f2 l := by
  intro f1
  induction f1 with
  | zero =>
    intro l f2 h1 _
    have : l = [] := List.eq_nil_of_length_eq_zero (Nat.le_zero.mp h1)
    subst this
    rw [findAllAux_nil, findAllAux_nil]
  | succ f1' ih =>
    intro l f2 h1 h2
    match l with
    | [] => rw [findAllAux_nil, findAllAux_nil]
    | c :: cs =>
      match f2 with
      | 0 => simp at h2
      | f2' + 1 =>
        rw [findAllAux, findAllAux]
        simp only [List.length_cons] at h1 h2
        match hm : matchFenceAt (c :: cs) with
        | some (content, rest) =>
          have hlen := matchFenceAt_some_length _ _ _ hm
          simp only [List.length_cons] at hlen
          dsimp only
          rw [ih rest f2' (by omega) (by omega)]
        | none =>
          dsimp only
          exact ih cs f2' (by omega) (by omega)

theorem findAll_cons_match (c : Char) (cs content rest : List Char)
    (h : matchFenceAt (c :: cs) = some (content, rest)) :
    findAll (c :: cs) = content :: findAll rest := by
  have hlen := matchFenceAt_some_length _ _ _ h
  rw [findAll, findAll, List.length_cons, findAllAux, h]
  dsimp only
  simp only [List.length_cons] at hlen
  rw [findAllAux_congr cs.length rest rest.length (by omega) (Nat.le_refl _)]

theorem findAll_cons_skip (c : Char) (cs : List Char)
    (h : matchFenceAt (c :: cs) = none) :
    findAll (c :: cs) = findAll cs := by
  rw [findAll, findAll, List.length_cons, findAllAux, h]

theorem findAll_append_free (a l : List Char) (ha : ∀ x ∈ a, x ≠ backquote) :
    findAll (a ++ l) = findAll l := by
  induction a with
  | nil => rw [List.nil_append]
  | cons c a' ih =>
    rw [List.cons_append,
      findAll_cons_skip _ _ (matchFenceAt_none_of_ne _ _ (ha c (List.mem_cons_self c a'))),
      ih (fun x hx => ha x (List.mem_cons_of_mem c hx))]

theorem findAll_eq_nil_free (l : List Char) (h : ∀ x ∈ l, x ≠ backquote) :
    findAll l = [] := by
  have := findAll_append_free l [] h
  simpa using this

theorem findAll_fence_cons (tag content X : List Char)
    (ht : tag.all isWordChar = true) (hc : content ≠ [])
    (hcc : containsCloseB content = false) :
    findAll (fence tag content ++ X) = content :: findAll X := by
  have hm := matchFenceAt_fence tag content X ht hc hcc
  have hshape : fence tag content ++ X
      = backquote :: ((backquote :: backquote ::
          (tag ++ ('\n' :: (content ++ ('\n' :: backquote :: backquote :: backquote :: []))))) ++ X) := rfl
  rw [hshape] at hm ⊢
  exact findAll_cons_match _ _ _ _ hm

theorem splitAtClose_marker_isSome : ∀ (p r : List Char),
    (splitAtClose (p ++ ('\n' :: backquote :: backquote :: backquote :: r))).isSome = true
  | [], r => by
    rw [List.nil_append, splitAtClose, if_pos (by simp [startsClose])]
    rfl
  | c :: p', r => by
    rw [List.cons_append, splitAtClose]
    by_cases hs : startsClose (c :: (p' ++ ('\n' :: backquote :: backquote :: backquote :: r))) = true
    · rw [if_pos hs]; rfl
    · rw [if_neg hs]
      have ih := splitAtClose_marker_isSome p' r
      match hsp : splitAtClose (p' ++ ('\n' :: backquote :: backquote :: backquote :: r)) with
      | some (p2, r2) => rfl
      | none => rw [hsp] at ih; simp at ih

theorem matchFenceAt_isSome_fence (tag content v : List Char)
    (ht : tag.all isWordChar = true) (hc : content ≠ []) :
    (matchFenceAt (fence tag content ++ v)).isSome = true := by
  obtain ⟨c0, ctail, rfl⟩ : ∃ c0 ctail, content = c0 :: ctail := by
    match content, hc with
    | c0 :: ctail, _ => exact ⟨c0, ctail, rfl⟩
  have hshape : fence tag (c0 :: ctail) ++ v
      = backquote :: backquote :: backquote ::
          (tag ++ ('\n' :: (c0 :: (ctail ++ ('\n' :: backquote :: backquote :: backquote :: v))))) := by
    simp [fence, List.cons_append, List.append_assoc]
  rw [hshape, matchFenceAt, if_pos ⟨rfl, rfl, rfl⟩, dropWhile_word_append tag _ ht]
  dsimp only
  rw [if_pos rfl]
  have h := splitAtClose_marker_isSome ctail v
  match hsp : splitAtClose (ctail ++ ('\n' :: backquote :: backquote :: backquote :: v)) with
  | some (p2, r2) => rfl
  | none => rw [hsp] at h; simp at h

theorem containsFenceB_of_match (u s : List Char)
    (h : (matchFenceAt s).isSome = true) : containsFenceB (u ++ s) = true := by
  induction u with
  | nil =>
    rw [List.nil_append]
    match s, h with
    | c :: cs, h => rw [containsFenceB, h, Bool.true_or]
    | [], h => simp [matchFenceAt] at h
  | cons x u' ih =>
    rw [List.cons_append, containsFenceB, ih, Bool.or_true]

theorem matchFenceAt_shape : ∀ (s content rest : List Char),
    matchFenceAt s = some (content, rest) →
    ∃ tag, s = fence tag content ++ rest ∧ tag.all isWordChar = true ∧ content ≠ [] := by
  intro s content rest h
  match s with
  | [] => simp [matchFenceAt] at h
  | [a] => simp [matchFenceAt] at h
  | [a, b] => simp [matchFenceAt] at h
  | a :: b :: c :: cs =>
    rw [matchFenceAt] at h
    by_cases hcond : a = backquote ∧ b = backquote ∧ c = backquote
    · rw [if_pos hcond] at h
      obtain ⟨ha, hb, hc⟩ := hcond
      subst ha; subst hb; subst hc
      match hdw : cs.dropWhile isWordChar with
      | [] => rw [hdw] at h; simp at h
      | [nl] => rw [hdw] at h; simp at h
      | nl :: c0 :: cs2 =>
        rw [hdw] at h
        dsimp only at h
        by_cases hnl : nl = '\n'
        · rw [if_pos hnl] at h
          subst hnl
          match hsp : splitAtClose cs2 with
          | none => rw [hsp] at h; simp at h
          | some (p, rest') =>
            rw [hsp] at h
            injection h with h2
            injection h2 with hcont hrest
            subst hcont; subst hrest
            refine ⟨cs.takeWhile isWordChar, ?_, List.all_takeWhile, by simp⟩
            have hsplit : cs.takeWhile isWordChar ++ cs.dropWhile isWordChar = cs :=
              List.takeWhile_append_dropWhile isWordChar cs
            rw [hdw] at hsplit
            have hcs2 := splitAtClose_eq cs2 p rest' hsp
            rw [show backquote :: backquote :: backquote :: cs
                = backquote :: backquote :: backquote ::
                    (cs.takeWhile isWordChar ++ ('\n' :: c0 :: cs2)) by rw [hsplit]]
            rw [hcs2]
            simp [fence, List.cons_append, List.append_assoc]
        · rw [if_neg hnl] at h; simp at h
    · rw [if_neg hcond] at h; simp at h

theorem no_fence_of_containsFenceB_eq_false (l : List Char)
    (h : containsFenceB l = false) :
    ∀ u tag c v, tag.all isWordChar = true → c ≠ [] → l ≠ u ++ fence tag c ++ v := by
  intro u tag c v ht hc heq
  have hm := matchFenceAt_isSome_fence tag c v ht hc
  have htrue := containsFenceB_of_match u (fence tag c ++ v) hm
  rw [show u ++ fence tag c ++ v = u ++ (fence tag c ++ v) from List.append_assoc u _ v] at heq
  rw [heq, htrue] at h
  simp at h

theorem findAll_nil_of_no_fence : ∀ (l : List Char),
    (∀ u tag c v, tag.all isWordChar = true → c ≠ [] → l ≠ u ++ fence tag c ++ v) →
    findAll l = []
  | [], _ => rfl
  | x :: xs, h => by
    have hm : matchFenceAt (x :: xs) = none := by
      match hm : matchFenceAt (x :: xs) with
      | none => rfl
      | some (content, rest) =>
        obtain ⟨tag, hs, ht, hc⟩ := matchFenceAt_shape _ _ _ hm
        exact absurd hs (by
          have := h [] tag content rest ht hc
          simpa using this)
    rw [findAll_cons_skip _ _ hm]
    exact findAll_nil_of_no_fence xs (by
      intro u tag c v ht hc heq
      exact h (x :: u) tag c v ht hc (by rw [heq]; simp))

theorem findAll_fencedDoc : ∀ (pieces : List (List Char × List Char × List Char))
    (tail : List Char),
    (∀ p ∈ pieces, (∀ x ∈ p.1, x ≠ backquote) ∧ p.2.1.all isWordChar = true ∧
      p.2.2 ≠ [] ∧ containsCloseB p.2.2 = false) →
    (∀ x ∈ tail, x ≠ backquote) →
    findAll (fencedDoc pieces tail) = pieces.map (fun p => p.2.2)
  | [], tail, _, htail => by
    rw [fencedDoc, List.map_nil]
    exact findAll_eq_nil_free tail htail
  | (sep, tag, content) :: ps, tail, hp, htail => by
    have h0 := hp (sep, tag, content) (List.mem_cons_self _ _)
    rw [fencedDoc, findAll_append_free sep _ h0.1,
      findAll_fence_cons tag content _ h0.2.1 h0.2.2.1 h0.2.2.2,
      findAll_fencedDoc ps tail (fun p hmem => hp p (List.mem_cons_of_mem _ hmem)) htail,
      List.map_cons]

theorem explain_ne_empty (gen : String → GenResult) (service_type : String)
    (input_data : InputData) : ConceptCoach.explain gen service_type input_data ≠ "" := by
  unfold ConceptCoach.explain
  cases gen (ConceptCoach.full_prompt service_type input_data) with
  | raised e => exact str_ne_empty_of_left _ _ (by decide)
  | returned t =>
    match t with
    | none => decide
    | some t =>
      dsimp only
      by_cases ht : t = ""
      · rw [if_pos ht]; decide
      · rw [if_neg ht]; exact ht

theorem design_ne_empty (gen : String → GenResult) (previous service_type : String)
    (input_data : InputData) :
    PromptEngineeringCoach.design gen previous service_type input_data ≠ "" := by
  unfold PromptEngineeringCoach.design
  cases gen (PromptEngineeringCoach.full_prompt previous service_type input_data) with
  | raised e => exact str_ne_empty_of_left _ _ (by decide)
  | returned t =>
    match t with
    | none => decide
    | some t =>
      dsimp only
      by_cases ht : t = ""
      · rw [if_pos ht]; decide
      · rw [if_neg ht]; exact ht

theorem implement_ne_empty (gen : String → GenResult) (previous service_type : String)
    (input_data : InputData) :
    ImplementationCoach.implement gen previous service_type input_data ≠ "" := by
  unfold ImplementationCoach.implement
  cases gen (ImplementationCoach.full_prompt previous service_type input_data) with
  | raised e => exact str_ne_empty_of_left _ _ (by decide)
  | returned t =>
    match t with
    | none => decide
    | some t =>
      dsimp only
      by_cases ht : t = ""
      · rw [if_pos ht]; decide
      · rw [if_neg ht]; exact ht

/- ===== Claim theorems ===== -/

/-- C1: For every category and request, the coordinator passes each stage's
returned text literally into the next stage's assembled prompt: the full
prompt the design stage sends contains its `previous` input verbatim, the
full prompt the implement stage sends contains its `previous` input
verbatim, and in every (non-faulted) run the design stage is invoked on
exactly the explain stage's returned text and the implement stage on
exactly the design stage's returned text — for arbitrary external-call
behaviour, hence also when the returned text is a fixed error message. -/
theorem pipeline_feeds_previous_stage_text_verbatim
    (gen1 gen2 gen3 : String → GenResult) (timestamp service_type : String)
    (input_data : InputData) (logs : List WorkflowLog) (previous : String) :
    (∃ p q, PromptEngineeringCoach.full_prompt previous service_type input_data
        = p ++ previous ++ q) ∧
    (∃ p q, ImplementationCoach.full_prompt previous service_type input_data
        = p ++ previous ++ q) ∧
    (run_pipeline none timestamp gen1 gen2 gen3 service_type input_data logs).1.prompt
      = PromptEngineeringCoach.design gen2
          (ConceptCoach.explain gen1 service_type input_data) service_type input_data ∧
    (run_pipeline none timestamp gen1 gen2 gen3 service_type input_data logs).1.implementation
      = ImplementationCoach.implement gen3
          (PromptEngineeringCoach.design gen2
            (ConceptCoach.explain gen1 service_type input_data) service_type input_data)
          service_type input_data := by
  refine ⟨?_, ?_, rfl, rfl⟩
  · unfold PromptEngineeringCoach.full_prompt PromptEngineeringCoach.assemble_prompt
    exact exists_split_appL _ _ _ (exists_split_appL _ _ _ ⟨_, _, rfl⟩)
  · unfold ImplementationCoach.full_prompt ImplementationCoach.assemble_prompt
    exact exists_split_appL _ _ _ (exists_split_appL _ _ _ ⟨_, _, rfl⟩)

/-- C2 counterexample: a run in which the first stage's external call
raises (the returned concept text is the fixed error message embedding the
exception text `429 quota exceeded`), yet the workflow log records all
three stages — including the failed one — with status `success`, not
`error`: the stage runner catches the exception before the coordinator's
per-stage handler can see it. -/
theorem external_failure_logged_success_counterexample :
    (run_pipeline none "2025-05-01 12:00:00"
        (fun _ => GenResult.raised "429 quota exceeded")
        (fun _ => GenResult.returned (some "프롬프트 설계 조언"))
        (fun _ => GenResult.returned (some "구현 조언"))
        "개념 이해" [("question", "바이브 코딩이 뭔가요?")] []).1.concept
      = "개념 분석 중 오류가 발생했습니다: 429 quota exceeded" ∧
    ((run_pipeline none "2025-05-01 12:00:00"
        (fun _ => GenResult.raised "429 quota exceeded")
        (fun _ => GenResult.returned (some "프롬프트 설계 조언"))
        (fun _ => GenResult.returned (some "구현 조언"))
        "개념 이해" [("question", "바이브 코딩이 뭔가요?")] []).2.map
          (fun w => w.steps.map (fun s => s.status)))
      = [["success", "success", "success"]] :=
  ⟨rfl, rfl⟩

/-- C2 (amended): when the external text-generation call raises inside a
stage, the stage runner catches it and returns the fixed error text, so
the coordinator logs every stage of the run with status `success` (first
conjunct, for arbitrary external behaviour of all three stages); a stage
is logged with status `error` (with the error detail) exactly when the
stage call itself raises an exception out of the stage runner, which the
external-call handlers prevent (second conjunct, for a stage call that
does raise). -/
theorem external_failure_logged_as_success
    (timestamp service_type e : String) (gen1 gen2 gen3 : String → GenResult)
    (input_data : InputData) (logs : List WorkflowLog)
    (designF implementF : String → String → InputData → Except String String) :
    ((run_pipeline none timestamp gen1 gen2 gen3 service_type input_data logs).2
       = logs ++ [⟨service_type, timestamp,
           ["ConceptCoach", "PromptEngineeringCoach", "ImplementationCoach"],
           [⟨"ConceptCoach", "concept_explanation", "success", none⟩,
            ⟨"PromptEngineeringCoach", "prompt_design", "success", none⟩,
            ⟨"ImplementationCoach", "implementation", "success", none⟩]⟩]) ∧
    (∃ s2 s3 : StepRecord,
      (VibeCodingTeam.get_coding_advice none timestamp
          (fun _ _ => Except.error e) designF implementF
          service_type input_data logs).2
        = logs ++ [⟨service_type, timestamp,
            ["ConceptCoach", "PromptEngineeringCoach", "ImplementationCoach"],
            [⟨"ConceptCoach", "concept_explanation", "error", some e⟩, s2, s3]⟩] ∧
      (VibeCodingTeam.get_coding_advice none timestamp
          (fun _ _ => Except.error e) designF implementF
          service_type input_data logs).1.concept
        = "개념 분석 중 오류가 발생했습니다. 다시 시도해주세요.") := by
  refine ⟨rfl, ?_⟩
  unfold VibeCodingTeam.get_coding_advice
  dsimp only
  rcases designF "개념 분석 중 오류가 발생했습니다. 다시 시도해주세요." service_type input_data
    with e2 | t2 <;> dsimp only
  · rcases implementF "프롬프트 설계 중 오류가 발생했습니다. 다시 시도해주세요." service_type input_data
      with e3 | t3 <;> exact ⟨_, _, rfl, rfl⟩
  · rcases implementF t2 service_type input_data with e3 | t3 <;> exact ⟨_, _, rfl, rfl⟩

/-- C3: if an unexpected error escapes the three stage-level handlers
(`fault = some e`), the coordinator catches it and returns a result whose
three fields all carry the uniform system-error string; no exception
propagates (the function is total) and the workflow log is unchanged — no
entry is appended for that run. -/
theorem toplevel_catchall_uniform_result_no_log
    (e timestamp : String)
    (explainF : String → InputData → Except String String)
    (designF implementF : String → String → InputData → Except String String)
    (service_type : String) (input_data : InputData) (logs : List WorkflowLog) :
    VibeCodingTeam.get_coding_advice (some e) timestamp explainF designF implementF
        service_type input_data logs
      = (⟨systemErrorMessage, systemErrorMessage, systemErrorMessage⟩, logs) :=
  rfl

/-- C4: for every category, request, external-call behaviour and fault
(zero, one, two or all three stages failing, and the top-level catch-all
path), the pipeline runs to completion and returns a result with exactly
the three text fields `concept`, `prompt`, `implementation`, each a
nonempty text. -/
theorem pipeline_always_returns_three_texts
    (fault : Option String) (timestamp : String) (gen1 gen2 gen3 : String → GenResult)
    (service_type : String) (input_data : InputData) (logs : List WorkflowLog) :
    ∃ c p i : String,
      (run_pipeline fault timestamp gen1 gen2 gen3 service_type input_data logs).1
        = ⟨c, p, i⟩ ∧ c ≠ "" ∧ p ≠ "" ∧ i ≠ "" := by
  cases fault with
  | some e =>
    exact ⟨systemErrorMessage, systemErrorMessage, systemErrorMessage, rfl,
      by decide, by decide, by decide⟩
  | none =>
    exact ⟨_, _, _, rfl,
      explain_ne_empty gen1 service_type input_data,
      design_ne_empty gen2 _ service_type input_data,
      implement_ne_empty gen3 _ service_type input_data⟩

/-- C5: when the external text-generation call raises an exception inside
a stage runner, the stage runner catches it and returns its fixed per-stage
message followed by the original exception's text (so the message contains
that text), and no exception escapes the runner (each runner is a total
function). -/
theorem stage_runner_catches_and_reports_error_text
    (e service_type previous : String) (input_data : InputData) :
    ConceptCoach.explain (fun _ => GenResult.raised e) service_type input_data
      = "개념 분석 중 오류가 발생했습니다: " ++ e ∧
    PromptEngineeringCoach.design (fun _ => GenResult.raised e) previous service_type input_data
      = "프롬프트 설계 중 오류가 발생했습니다: " ++ e ∧
    ImplementationCoach.implement (fun _ => GenResult.raised e) previous service_type input_data
      = "코드 구현 중 오류가 발생했습니다: " ++ e :=
  ⟨rfl, rfl, rfl⟩

/-- C6: for every category (and prior text), when the external call
succeeds but the response text is null or empty each stage runner returns
the fixed no-response message, and when it returns nonempty text the
runner returns that text verbatim. -/
theorem stage_runner_empty_response_fallback
    (service_type previous t : String) (input_data : InputData) :
    (ConceptCoach.explain (fun _ => GenResult.returned none) service_type input_data
        = noResponseMessage ∧
     ConceptCoach.explain (fun _ => GenResult.returned (some "")) service_type input_data
        = noResponseMessage ∧
     (t ≠ "" → ConceptCoach.explain (fun _ => GenResult.returned (some t))
        service_type input_data = t)) ∧
    (PromptEngineeringCoach.design (fun _ => GenResult.returned none)
        previous service_type input_data = noResponseMessage ∧
     PromptEngineeringCoach.design (fun _ => GenResult.returned (some ""))
        previous service_type input_data = noResponseMessage ∧
     (t ≠ "" → PromptEngineeringCoach.design (fun _ => GenResult.returned (some t))
        previous service_type input_data = t)) ∧
    (ImplementationCoach.implement (fun _ => GenResult.returned none)
        previous service_type input_data = noResponseMessage ∧
     ImplementationCoach.implement (fun _ => GenResult.returned (some ""))
        previous service_type input_data = noResponseMessage ∧
     (t ≠ "" → ImplementationCoach.implement (fun _ => GenResult.returned (some t))
        previous service_type input_data = t)) := by
  refine ⟨⟨rfl, rfl, fun ht => ?_⟩, ⟨rfl, rfl, fun ht => ?_⟩, ⟨rfl, rfl, fun ht => ?_⟩⟩
  · show (if t = "" then noResponseMessage else t) = t
    rw [if_neg ht]
  · show (if t = "" then noResponseMessage else t) = t
    rw [if_neg ht]
  · show (if t = "" then noResponseMessage else t) = t
    rw [if_neg ht]

/-- C6 witness: the nonempty-text case of `stage_runner_empty_response_fallback`
at a concrete input. -/
theorem stage_runner_empty_response_fallback_witness :
    ("생성된 설명" : String) ≠ "" ∧
    ConceptCoach.explain (fun _ => GenResult.returned (some "생성된 설명")) "개념 이해" []
      = "생성된 설명" :=
  ⟨by decide,
   (stage_runner_empty_response_fallback "개념 이해" "" "생성된 설명" []).1.2.2 (by decide)⟩

/-- C7: for each of the four known categories the template selector of the
first stage is total (a Lean function cannot raise) and returns nonempty
prompt text for every request, including one with all fields missing or
empty; for any unrecognized category it returns the generic template,
whose text contains the category tag and the serialized request. -/
theorem template_selector_total_and_generic_fallback
    (input_data : InputData) (service_type : String) :
    ConceptCoach.select_prompt "개념 이해" input_data ≠ "" ∧
    ConceptCoach.select_prompt "프로젝트 설계" input_data ≠ "" ∧
    ConceptCoach.select_prompt "코드 생성" input_data ≠ "" ∧
    ConceptCoach.select_prompt "학습 계획" input_data ≠ "" ∧
    (service_type ≠ "개념 이해" → service_type ≠ "프로젝트 설계" →
     service_type ≠ "코드 생성" → service_type ≠ "학습 계획" →
     ConceptCoach.select_prompt service_type input_data
        = ConceptCoach.create_general_concept_prompt input_data service_type ∧
     (∃ p q, ConceptCoach.select_prompt service_type input_data
        = p ++ service_type ++ q) ∧
     (∃ p q, ConceptCoach.select_prompt service_type input_data
        = p ++ InputData.reprStr input_data ++ q)) := by
  refine ⟨?_, ?_, ?_, ?_, fun h1 h2 h3 h4 => ?_⟩
  · unfold ConceptCoach.select_prompt
    rw [if_pos rfl]
    unfold ConceptCoach.create_concept_prompt
    exact str_ne_empty_of_right _ _ (by decide)
  · unfold ConceptCoach.select_prompt
    rw [if_neg (by decide), if_pos rfl]
    unfold ConceptCoach.create_project_concept_prompt
    exact str_ne_empty_of_right _ _ (by decide)
  · unfold ConceptCoach.select_prompt
    rw [if_neg (by decide), if_neg (by decide), if_pos rfl]
    unfold ConceptCoach.create_code_concept_prompt
    exact str_ne_empty_of_right _ _ (by decide)
  · unfold ConceptCoach.select_prompt
    rw [if_neg (by decide), if_neg (by decide), if_neg (by decide), if_pos rfl]
    unfold ConceptCoach.create_learning_concept_prompt
    exact str_ne_empty_of_right _ _ (by decide)
  · have hsel : ConceptCoach.select_prompt service_type input_data
        = ConceptCoach.create_general_concept_prompt input_data service_type := by
      unfold ConceptCoach.select_prompt
      rw [if_neg h1, if_neg h2, if_neg h3, if_neg h4]
    refine ⟨hsel, ?_, ?_⟩
    · rw [hsel]
      unfold ConceptCoach.create_general_concept_prompt
      exact exists_split_appL _ _ _ (exists_split_appL _ _ _ ⟨_, _, rfl⟩)
    · rw [hsel]
      unfold ConceptCoach.create_general_concept_prompt
      exact ⟨_, _, rfl⟩

/-- C7 witness: the unrecognized-category case of
`template_selector_total_and_generic_fallback` at a concrete input. -/
theorem template_selector_total_and_generic_fallback_witness :
    (("디버깅 요청" : String) ≠ "개념 이해" ∧ ("디버깅 요청" : String) ≠ "프로젝트 설계" ∧
     ("디버깅 요청" : String) ≠ "코드 생성" ∧ ("디버깅 요청" : String) ≠ "학습 계획") ∧
    ConceptCoach.select_prompt "디버깅 요청" [("question", "")]
      = ConceptCoach.create_general_concept_prompt [("question", "")] "디버깅 요청" :=
  ⟨⟨by decide, by decide, by decide, by decide⟩,
   ((template_selector_total_and_generic_fallback [("question", "")] "디버깅 요청").2.2.2.2
      (by decide) (by decide) (by decide) (by decide)).1⟩

/-- C8: code-block extraction over the implementation text returns all
fenced code blocks (triple-backtick delimited, optional `\w`-tag —
modelled as ASCII word characters) in their original order of appearance,
concatenated with a blank line between consecutive blocks: proved for any
number of blocks interleaved with arbitrary fence-free separator text
(each block's content nonempty and not itself containing a closing
marker); and for any text that contains no fenced block — no substring of
it is a well-formed fence, which admits stray backticks and unterminated
fences — extraction returns the empty result. -/
theorem code_block_extraction_in_order_blank_line
    (pieces : List (List Char × List Char × List Char)) (tail l : List Char)
    (hp : ∀ p ∈ pieces, (∀ x ∈ p.1, x ≠ backquote) ∧ p.2.1.all isWordChar = true ∧
      p.2.2 ≠ [] ∧ containsCloseB p.2.2 = false)
    (htail : ∀ x ∈ tail, x ≠ backquote)
    (hnofence : ∀ u tag c v, tag.all isWordChar = true → c ≠ [] →
      l ≠ u ++ fence tag c ++ v) :
    combined_code (String.mk (fencedDoc pieces tail))
      = String.mk (joinBlocks (pieces.map (fun p => p.2.2))) ∧
    combined_code (String.mk l) = "" := by
  constructor
  · unfold combined_code extract_code_blocks
    rw [show (String.mk (fencedDoc pieces tail)).data = fencedDoc pieces tail from rfl,
      findAll_fencedDoc pieces tail hp htail]
  · unfold combined_code extract_code_blocks
    rw [show (String.mk l).data = l from rfl, findAll_nil_of_no_fence l hnofence]
    rfl

/-- C8 witness: `code_block_extraction_in_order_blank_line` at the spec's
concrete example — two fenced blocks `print("a")` and `print("b")` in
surrounding prose — and at a blockless text that does contain backticks
(an unterminated fence). -/
theorem code_block_extraction_in_order_blank_line_witness :
    combined_code (String.mk (fencedDoc
        [("설명 텍스트\n".data, "python".data, "print(\"a\")".data),
         ("\n중간 텍스트\n".data, [], "print(\"b\")".data)] "\n끝".data))
      = "print(\"a\")\n\nprint(\"b\")" ∧
    combined_code "코드 예시 ```python\nprint(1) 인데 닫는 펜스가 없는 텍스트" = "" := by
  have h := code_block_extraction_in_order_blank_line
      [("설명 텍스트\n".data, "python".data, "print(\"a\")".data),
       ("\n중간 텍스트\n".data, [], "print(\"b\")".data)]
      "\n끝".data
      "코드 예시 ```python\nprint(1) 인데 닫는 펜스가 없는 텍스트".data
      (by decide) (by decide)
      (no_fence_of_containsFenceB_eq_false _ (by decide))
  constructor
  · rw [h.1]; decide
  · exact h.2

/-- C9: the file-extension lookup is total (a Lean function cannot raise)
and case-insensitive: any input whose lowercased form is a key of the
fixed table maps to the table's extension (in particular `"Python" → py`
and `"TypeScript" → ts`), and any other input (e.g. `"Elixir"`) maps to
the generic default `txt`. -/
theorem file_extension_lookup_case_insensitive_total (language ext : String) :
    (extensions.lookup (pyLower language) = some ext →
      get_file_extension language = ext) ∧
    (extensions.lookup (pyLower language) = none →
      get_file_extension language = "txt") ∧
    get_file_extension "Python" = "py" ∧
    get_file_extension "TypeScript" = "ts" ∧
    get_file_extension "Elixir" = "txt" := by
  refine ⟨fun h => ?_, fun h => ?_, by decide, by decide, by decide⟩
  · unfold get_file_extension
    rw [h]
  · unfold get_file_extension
    rw [h]

/-- C9 witness: `file_extension_lookup_case_insensitive_total` at a
concrete mixed-case input. -/
theorem file_extension_lookup_case_insensitive_total_witness :
    extensions.lookup (pyLower "PYTHON") = some "py" ∧
    get_file_extension "PYTHON" = "py" :=
  ⟨by decide,
   (file_extension_lookup_case_insensitive_total "PYTHON" "py").1 (by decide)⟩

/-- C10: every run of the coordinator that does not hit the top-level
catch-all appends exactly one entry to the workflow log (the log is
extended by append, leaving all earlier entries unchanged), and that
entry's steps are exactly three records in the fixed order ConceptCoach,
PromptEngineeringCoach, ImplementationCoach, each with status `success` or
`error` — for arbitrary stage behaviour. -/
theorem workflow_log_one_entry_three_steps_append_only
    (timestamp : String)
    (explainF : String → InputData → Except String String)
    (designF implementF : String → String → InputData → Except String String)
    (service_type : String) (input_data : InputData) (logs : List WorkflowLog) :
    ∃ entry : WorkflowLog,
      (VibeCodingTeam.get_coding_advice none timestamp explainF designF implementF
          service_type input_data logs).2 = logs ++ [entry] ∧
      entry.service_type = service_type ∧
      entry.timestamp = timestamp ∧
      entry.coaches_involved
        = ["ConceptCoach", "PromptEngineeringCoach", "ImplementationCoach"] ∧
      entry.steps.map StepRecord.coach
        = ["ConceptCoach", "PromptEngineeringCoach", "ImplementationCoach"] ∧
      entry.steps.map StepRecord.action
        = ["concept_explanation", "prompt_design", "implementation"] ∧
      entry.steps.length = 3 ∧
      entry.steps.all (fun s => s.status == "success" || s.status == "error") = true := by
  unfold VibeCodingTeam.get_coding_advice
  dsimp only
  rcases explainF service_type input_data with e1 | t1 <;> dsimp only
  · rcases designF "개념 분석 중 오류가 발생했습니다. 다시 시도해주세요." service_type input_data
      with e2 | t2 <;> dsimp only
    · rcases implementF "프롬프트 설계 중 오류가 발생했습니다. 다시 시도해주세요." service_type input_data
        with e3 | t3 <;> exact ⟨_, rfl, rfl, rfl, rfl, rfl, rfl, rfl, rfl⟩
    · rcases implementF t2 service_type input_data
        with e3 | t3 <;> exact ⟨_, rfl, rfl, rfl, rfl, rfl, rfl, rfl, rfl⟩
  · rcases designF t1 service_type input_data with e2 | t2 <;> dsimp only
    · rcases implementF "프롬프트 설계 중 오류가 발생했습니다. 다시 시도해주세요." service_type input_data
        with e3 | t3 <;> exact ⟨_, rfl, rfl, rfl, rfl, rfl, rfl, rfl, rfl⟩
    · rcases implementF t2 service_type input_data
        with e3 | t3 <;> exact ⟨_, rfl, rfl, rfl, rfl, rfl, rfl, rfl, rfl⟩
